import Mathlib

/-!
Shallow embedding of `src/packages/runner/src/PortugolExecutor.ts`.

The class `PortugolExecutor` orchestrates a parse → check → transpile
pipeline and an interactive line-buffered terminal.  Its mutable fields
become the record `ExecState`; every `Subject.next` call on a public
stream becomes an `Emission` appended to a trace; the external
collaborators (ANTLR parser, error checker, transpiler, runner
constructor) become oracle parameters returning `Except`, which models
a raised exception as `Except.error`.

Runner-side reactive subscriptions are modelled explicitly: each
`subscribe` call on a runner stream allocates a `RunnerSub` entry
(subscription id, runner id, which stream) in `ExecState.subs`, and
`unsubscribe` removes the entry named by the corresponding private
field.  The source never assigns the private fields `_stdOut$`,
`_waitingForInput$`, `_running$` (the `subscribe` return values on
lines 168-183 are discarded), which the model reproduces faithfully:
`subStdOutField`, `subWaitingField`, `subRunningField` stay `none` on
every code path.
-/

namespace PortugolWS

/-- Mirrors `PortugolCodeError` as used here: a message with a start line
and column, printed as `message (linha L, posição C)`. -/
structure PortugolCodeError where
  message : String
  startLine : Nat
  startCol : Nat
deriving DecidableEq, Repr

/-- Lifecycle events: the runner kinds `finish`/`clear`/`error` handled by
the `switch`, an `unknown` stand-in for the extensible `default` branch,
and the synthesized `parseError` event. -/
inductive PortugolEvent where
  | finish (time : Int)
  | clear
  | errorEv (message : String)
  | parseError (errors : List PortugolCodeError)
  | unknown
deriving DecidableEq, Repr

/-- Which runner stream a subscription is attached to: `stdOut$`,
`waitingForInput$`, `running$`, or the event stream returned by `run()`. -/
inductive SubTarget where
  | stdOutT
  | waitingT
  | runningT
  | eventsT
deriving DecidableEq, Repr

/-- One live subscription: its handle id, the id of the runner whose
stream it listens to, and which of that runner's streams. -/
structure RunnerSub where
  id : Nat
  rid : Nat
  target : SubTarget
deriving DecidableEq, Repr

/-- The mutable fields of `PortugolExecutor`, plus explicit bookkeeping
for runner identity and live subscriptions.  `subStdOutField`,
`subWaitingField` and `subRunningField` model the private `_stdOut$`,
`_waitingForInput$` and `_running$` fields of the source. -/
structure ExecState where
  byteCode : String
  stdInBuffer : String
  stdOut : String
  waitingForInput : Bool
  running : Bool
  runnerId : Option Nat
  nextRunnerId : Nat
  nextSubId : Nat
  subs : List RunnerSub
  subStdOutField : Option Nat
  subWaitingField : Option Nat
  subRunningField : Option Nat
  destroyed : List Nat
deriving DecidableEq, Repr

/-- Field initializers of the class: empty strings, false flags, no
runner, no subscriptions. -/
def initState : ExecState :=
  { byteCode := "", stdInBuffer := "", stdOut := "", waitingForInput := false,
    running := false, runnerId := none, nextRunnerId := 0, nextSubId := 0,
    subs := [], subStdOutField := none, subWaitingField := none,
    subRunningField := none, destroyed := [] }

/-- One observable side effect: a `next` call on a public subject
(`stdOut$`, `waitingForInput$`, `running$`, `events`), an invocation of
the `#printTimes` hook, or a line committed to the runner `stdIn`. -/
inductive Emission where
  | outE (s : String)
  | waitingE (b : Bool)
  | runningE (b : Bool)
  | eventE (e : PortugolEvent)
  | timesE (parseT checkT transpileT : Int) (execution : Option Int)
  | runnerStdInE (rid : Nat) (line : String)
deriving DecidableEq, Repr

/-- Bool test for an `stdOut$` emission, used to restrict a trace to the
public output stream. -/
def Emission.isOut : Emission → Bool
  | Emission.outE _ => true
  | _ => false

/-- Models JavaScript `s.slice(0, -1)`: drop the last character, the
empty string maps to itself. -/
def strDropLast (s : String) : String :=
  String.mk s.data.dropLast

/-- Character-list infix test, models JavaScript `String.includes`. -/
def segIn (pat : List Char) : List Char → Bool
  | [] => pat.isEmpty
  | a :: l => pat.isPrefixOf (a :: l) || segIn pat l

/-- Models `code.includes(keyword)`. -/
def strIncludes (s pat : String) : Bool :=
  segIn pat.data s.data

/-- The keystroke handler installed on `this.stdIn` in the constructor
(lines 13-29): backspace edits the buffer and the transcript, carriage
return commits the buffer to the active runner and appends a newline,
any other data is echoed into both; every branch then emits the current
`stdOut` on `stdOut$`. -/
def handleStdIn (st : ExecState) (data : String) : ExecState × List Emission :=
  if data = "\x08" then
    if st.stdInBuffer.length > 0 then
      let st1 := { st with stdInBuffer := strDropLast st.stdInBuffer,
                           stdOut := strDropLast st.stdOut }
      (st1, [Emission.outE st1.stdOut])
    else
      (st, [Emission.outE st.stdOut])
  else if data = "\x0d" then
    let commit : List Emission :=
      match st.runnerId with
      | some r => [Emission.runnerStdInE r st.stdInBuffer]
      | none => []
    let st1 := { st with stdInBuffer := "", stdOut := st.stdOut ++ "\n" }
    (st1, commit ++ [Emission.outE st1.stdOut])
  else
    let st1 := { st with stdInBuffer := st.stdInBuffer ++ data,
                         stdOut := st.stdOut ++ data }
    (st1, [Emission.outE st1.stdOut])

/-- `Subscription.unsubscribe()` through an optional stored handle:
removes the subscription with that id, a no-op when the field is
`none`. -/
def unsubscribeField (subs : List RunnerSub) (fld : Option Nat) : List RunnerSub :=
  match fld with
  | none => subs
  | some i => subs.filter (fun s => s.id ≠ i)

/-- `reset(clearStdOut)` (lines 233-247): optionally clear the
transcript, unsubscribe through the three stored handles, drop both
flags to false, and invoke `destroy()` on the current runner.  No
public subject is `next`ed. -/
def reset (clearStdOut : Bool) (st : ExecState) : ExecState × List Emission :=
  let s0 := if clearStdOut then { st with stdOut := "" } else st
  let subs1 := unsubscribeField s0.subs s0.subStdOutField
  let subs2 := unsubscribeField subs1 s0.subWaitingField
  let subs3 := unsubscribeField subs2 s0.subRunningField
  ({ s0 with waitingForInput := false, running := false, subs := subs3,
             destroyed := s0.destroyed ++ s0.runnerId.toList }, [])

/-- `stop()` is `reset()` with the default `clearStdOut = true`. -/
def stop (st : ExecState) : ExecState × List Emission :=
  reset true st

/-- The per-phase timings of the bundle. -/
structure RunTimes where
  parseT : Int
  checkT : Int
  transpileT : Int
deriving DecidableEq, Repr

/-- The argument record of `runTranspiled` (the `ExecutionRequest`
bundle): source code, transpiled code, semantic diagnostics (`errors`),
syntax diagnostics (`parseErrors`) and the phase timings. -/
structure RunBundle where
  code : String
  js : String
  errors : List PortugolCodeError
  parseErrors : List PortugolCodeError
  times : RunTimes
deriving DecidableEq, Repr

/-- Opaque stand-in for an ANTLR parse tree; only its identity matters
to the orchestrator. -/
structure ParseTree where
  id : Nat
deriving DecidableEq, Repr

/-- Oracles for the external collaborators used by `run`:
`parseResult` is the outcome of lexing/parsing up to `parser.arquivo()`
(`Except.error` models a raised exception anywhere in that phase),
`listenerErrors` is what `errorListener.getErrors()` returns afterwards,
`checkTree` models `PortugolErrorChecker.checkTree`, and `visit` models
`new PortugolJs().visit`. -/
structure Collaborators where
  parseResult : Except Unit ParseTree
  listenerErrors : List PortugolCodeError
  checkTree : ParseTree → Except Unit (List PortugolCodeError)
  visit : ParseTree → Except Unit String

/-- The pipeline part of `run(code)` (lines 52-99): one `try` block
running parse, check and transpile in order, timestamps taken from
`clock` in call order, every local initialized to zero/empty before the
`try`, and an empty `catch` so a raise anywhere only skips the
remaining statements.  The bundle is always built. -/
def runPipeline (clock : Nat → Int) (c : Collaborators) (code : String) : RunBundle :=
  let parseStart := clock 0
  match c.parseResult with
  | Except.error _ =>
      { code := code, js := "", errors := [], parseErrors := c.listenerErrors,
        times := { parseT := 0 - parseStart, checkT := 0, transpileT := 0 } }
  | Except.ok tree =>
      let parseEnd := clock 1
      let checkStart := clock 2
      match c.checkTree tree with
      | Except.error _ =>
          { code := code, js := "", errors := [], parseErrors := c.listenerErrors,
            times := { parseT := parseEnd - parseStart, checkT := 0 - checkStart,
                       transpileT := 0 } }
      | Except.ok errs =>
          let checkEnd := clock 3
          let transpileStart := clock 4
          match c.visit tree with
          | Except.error _ =>
              { code := code, js := "", errors := errs, parseErrors := c.listenerErrors,
                times := { parseT := parseEnd - parseStart,
                           checkT := checkEnd - checkStart,
                           transpileT := 0 - transpileStart } }
          | Except.ok js =>
              let transpileEnd := clock 5
              { code := code, js := js, errors := errs, parseErrors := c.listenerErrors,
                times := { parseT := parseEnd - parseStart,
                           checkT := checkEnd - checkStart,
                           transpileT := transpileEnd - transpileStart } }

/-- The boxed legacy-dialect banner appended by
`argueAboutAlgolIfNeeded` (lines 128-138), as one string. -/
def algolBanner : String :=
  "\n" ++
  "╔═════════════════════════════════════╗\n" ++
  "║               ATENÇÃO               ║\n" ++
  "║                                     ║\n" ++
  "║ Foi detectado que o seu código está ║\n" ++
  "║ usando o Portugol no formato Algol. ║\n" ++
  "║ O Portugol Webstudio dá suporte ao  ║\n" ++
  "║ Portugol no formato definido pela   ║\n" ++
  "║ UNIVALI. Por favor, leia mais sobre ║\n" ++
  "║ na seção Ajuda.                     ║\n" ++
  "╚═════════════════════════════════════╝\n\n"

/-- The fixed legacy block-closing keywords tested on line 126. -/
def legacyKeywords : List String :=
  ["fimalgoritmo", "fimenquanto", "fimpara", "fimse", "fimfuncao"]

/-- `["fimalgoritmo", ...].some(keyword => code.includes(keyword))`. -/
def hasLegacy (code : String) : Bool :=
  legacyKeywords.any (fun k => strIncludes code k)

/-- The diagnostic count line (line 144), singular `erro` exactly when
`errors.length > 1` fails. -/
def countLine (n : Nat) : String :=
  "⛔ O seu código possui " ++ toString n ++ " erro" ++
    (if n > 1 then "s" else "") ++ " de compilação:\n"

/-- One formatted diagnostic line (line 146). -/
def diagLine (e : PortugolCodeError) : String :=
  "   - " ++ e.message ++ " (linha " ++ toString e.startLine ++ ", posição " ++
    toString e.startCol ++ ")\n"

/-- JavaScript `array.join("")`: plain concatenation. -/
def joinAll (l : List String) : String :=
  l.foldr (fun a b => a ++ b) ""

/-- `errors.map(...).join("")` (lines 145-147), appended as one piece. -/
def diagListing (errors : List PortugolCodeError) : String :=
  joinAll (errors.map diagLine)

/-- The fixed experimental-phase warning paragraph (lines 149-150). -/
def warnPara : String :=
  "\n⚠️ Durante essa fase experimental, o código ainda será executado mesmo com erros, porém se não corrigi-los, a execução abaixo pode exibir mensagens de erro em inglês ou sem explicação.\n"

/-- The fixed issue-reporting line (line 151). -/
def issueLine : String :=
  "   Caso acredite que o erro não faça sentido, por favor, abra uma issue em https://github.com/dgadelha/Portugol-Webstudio/issues/new/choose e anexe o código que você está tentando executar.\n\n"

/-- The fixed program-starting marker line (line 155). -/
def startMarker : String :=
  "- O seu programa irá iniciar abaixo -\n"

/-- The fixed failure line appended in the `catch` block (line 220). -/
def failLine : String :=
  "\n⛔ O seu código possui um erro de compilação!\n"

/-- The banner-or-nothing contribution of one
`argueAboutAlgolIfNeeded()` call. -/
def argueSegments (code : String) : List String :=
  if hasLegacy code then [algolBanner] else []

/-- The pieces appended to `stdOut` by the warn-and-continue branch
(lines 123-155), in append order: banner-if-legacy, count line,
diagnostic listing, warning paragraph, issue line, banner-if-legacy,
start marker. -/
def warnSegments (code : String) (errors : List PortugolCodeError) : List String :=
  argueSegments code ++
    [countLine errors.length, diagListing errors, warnPara, issueLine] ++
    argueSegments code ++ [startMarker]

/-- The `catch` block of `runTranspiled` (lines 217-226): append the
fixed failure line, emit the transcript, invoke `#printTimes` with the
original timings and no execution time, `reset(false)`, and emit one
`parseError` event carrying the syntax diagnostics. -/
def catchPath (st : ExecState) (b : RunBundle) : ExecState × List Emission :=
  let st1 := { st with stdOut := st.stdOut ++ failLine }
  let r := reset false st1
  (r.1, [Emission.outE st1.stdOut,
         Emission.timesE b.times.parseT b.times.checkT b.times.transpileT none] ++
        r.2 ++ [Emission.eventE (PortugolEvent.parseError b.parseErrors)])

/-- `runTranspiled(bundle)` (lines 103-227).  `ctor` is the outcome of
`new this.runner(js)` together with the null check on line 162: `ok`
carries the constructed runner's `byteCode`, `error` models a raise
(caught by the `catch` block).  On success a fresh runner id is
allocated and four subscriptions are wired to its streams; the
`subscribe` return values are discarded, exactly as in the source, so
the three stored-handle fields remain untouched. -/
def runTranspiled (st : ExecState) (b : RunBundle) (ctor : Except Unit String) :
    ExecState × List Emission :=
  let r0 := reset true st
  let st1 := r0.1
  if b.parseErrors ≠ [] then
    let r := catchPath st1 b
    (r.1, r0.2 ++ r.2)
  else
    let p2 : ExecState × List Emission :=
      if b.errors ≠ [] then
        let st2 := { st1 with stdOut := st1.stdOut ++ joinAll (warnSegments b.code b.errors) }
        (st2, [Emission.outE st2.stdOut])
      else (st1, [])
    let st2 := p2.1
    match ctor with
    | Except.error _ =>
        let r := catchPath st2 b
        (r.1, r0.2 ++ p2.2 ++ r.2)
    | Except.ok bc =>
        let rid := st2.nextRunnerId
        let newSubs : List RunnerSub :=
          [{ id := st2.nextSubId, rid := rid, target := SubTarget.stdOutT },
           { id := st2.nextSubId + 1, rid := rid, target := SubTarget.waitingT },
           { id := st2.nextSubId + 2, rid := rid, target := SubTarget.runningT },
           { id := st2.nextSubId + 3, rid := rid, target := SubTarget.eventsT }]
        ({ st2 with runnerId := some rid, nextRunnerId := rid + 1, byteCode := bc,
                    nextSubId := st2.nextSubId + 4, subs := st2.subs ++ newSubs },
         r0.2 ++ p2.2)

/-- `run(code)` (lines 52-99): build the bundle with the pipeline and
hand it to `runTranspiled`, unconditionally. -/
def run (clock : Nat → Int) (c : Collaborators) (ctor : Except Unit String)
    (st : ExecState) (code : String) : ExecState × List Emission :=
  runTranspiled st (runPipeline clock c code) ctor

/-- The body of the `stdOut$` forwarding handler (lines 168-171):
append the chunk to the transcript, then emit the chunk itself on
`stdOut$`. -/
def chunkHandler (st : ExecState) (data : String) : ExecState × Emission :=
  ({ st with stdOut := st.stdOut ++ data }, Emission.outE data)

/-- Fire the chunk handler once per matching live subscription. -/
def fireChunk : Nat → ExecState → String → ExecState × List Emission
  | 0, st, _ => (st, [])
  | Nat.succ n, st, d =>
      let p := chunkHandler st d
      let q := fireChunk n p.1 d
      (q.1, p.2 :: q.2)

/-- The live subscriptions attached to runner `rid`'s `stdOut$`. -/
def stdOutSubsFor (st : ExecState) (rid : Nat) : List RunnerSub :=
  st.subs.filter (fun s => s.rid == rid && s.target == SubTarget.stdOutT)

/-- Delivery of one output chunk emitted by runner `rid`: every live
subscription to that runner's `stdOut$` runs the forwarding handler
once. -/
def deliverChunk (st : ExecState) (rid : Nat) (d : String) : ExecState × List Emission :=
  fireChunk (stdOutSubsFor st rid).length st d

/-- A bundle with no diagnostics at all: the launch succeeds and wires a
runner. -/
def cleanBundle : RunBundle :=
  { code := "programa", js := "js", errors := [], parseErrors := [],
    times := { parseT := 1, checkT := 1, transpileT := 1 } }

/-- First launch from the initial state: constructs runner 0 and wires
subscriptions 0-3 to it. -/
def launch1 : ExecState × List Emission :=
  runTranspiled initState cleanBundle (Except.ok "bc1")

/-- Second launch with no intervening `stop()`: constructs runner 1 and
wires subscriptions 4-7 to it. -/
def launch2 : ExecState × List Emission :=
  runTranspiled launch1.1 cleanBundle (Except.ok "bc2")

/-- A strictly increasing, positive clock for concrete pipeline runs. -/
def cexClock : Nat → Int :=
  fun i => (i : Int) + 1

/-- Collaborators whose checker raises: parsing succeeds, `checkTree`
throws, transpiling would succeed. -/
def cexCollab : Collaborators :=
  { parseResult := Except.ok { id := 0 }, listenerErrors := [],
    checkTree := fun _ => Except.error (), visit := fun _ => Except.ok "x" }

/-- Collaborators where every phase succeeds. -/
def okCollab : Collaborators :=
  { parseResult := Except.ok { id := 0 }, listenerErrors := [],
    checkTree := fun _ => Except.ok [], visit := fun _ => Except.ok "js" }

/-- A bundle carrying one syntax diagnostic: the fatal path. -/
def fatalBundle : RunBundle :=
  { code := "p", js := "", errors := [],
    parseErrors := [{ message := "missing token", startLine := 1, startCol := 0 }],
    times := { parseT := 3, checkT := 0, transpileT := 0 } }

/-- A bundle with one semantic diagnostic and no syntax diagnostics:
the warn-and-continue path. -/
def warnBundle : RunBundle :=
  { code := "p", js := "j", errors := [{ message := "e", startLine := 1, startCol := 2 }],
    parseErrors := [], times := { parseT := 1, checkT := 1, transpileT := 1 } }

/-- A state with a non-empty transcript, as left by a prior echoed
chunk. -/
def chunkSt : ExecState :=
  { initState with stdOut := "a" }

/-- A state carrying a transcript from a previous run. -/
def prevSt : ExecState :=
  { initState with stdOut := "old transcript" }

/-- A state with two uncommitted keystrokes and an empty transcript, as
reachable after a `clear` lifecycle event. -/
def backSt : ExecState :=
  { initState with stdInBuffer := "ab" }

/-- Two strings differing on some prefix of their character data are
different. -/
theorem strNeOfTakeNe (n : Nat) (s t : String) (h : s.data.take n ≠ t.data.take n) : s ≠ t :=
  fun he => h (he ▸ rfl)

/-- The diagnostic count line always starts with the no-entry sign,
whatever the count. -/
theorem countLine_take4 (n : Nat) : (countLine n).data.take 4 = ['⛔', ' ', 'O', ' '] := by
  simp only [countLine, String.data_append, List.append_assoc]
  rw [List.take_append_of_le_length (by decide)]
  decide

/-- A non-empty diagnostic listing always starts with the indented dash,
whatever the messages. -/
theorem diagListing_take4 (e : PortugolCodeError) (rest : List PortugolCodeError) :
    (diagListing (e :: rest)).data.take 4 = [' ', ' ', ' ', '-'] := by
  simp only [diagListing, List.map_cons, joinAll, List.foldr_cons, diagLine,
    String.data_append, List.append_assoc]
  rw [List.take_append_of_le_length (by decide)]
  decide

/-- The count line is never the legacy banner. -/
theorem cl_ne_banner (n : Nat) : countLine n ≠ algolBanner := by
  apply strNeOfTakeNe 4
  rw [countLine_take4]
  decide

/-- A non-empty diagnostic listing is never the legacy banner. -/
theorem dl_ne_banner (e : PortugolCodeError) (rest : List PortugolCodeError) :
    diagListing (e :: rest) ≠ algolBanner := by
  apply strNeOfTakeNe 4
  rw [diagListing_take4]
  decide

/-- The count line is never the diagnostic listing. -/
theorem cl_ne_dl (n : Nat) (e : PortugolCodeError) (rest : List PortugolCodeError) :
    countLine n ≠ diagListing (e :: rest) := by
  apply strNeOfTakeNe 4
  rw [countLine_take4, diagListing_take4]
  decide

/-- The warning paragraph is never the diagnostic listing. -/
theorem wp_ne_dl (e : PortugolCodeError) (rest : List PortugolCodeError) :
    warnPara ≠ diagListing (e :: rest) := by
  apply strNeOfTakeNe 4
  rw [diagListing_take4]
  decide

/-- The issue-reporting line is never the diagnostic listing. -/
theorem il_ne_dl (e : PortugolCodeError) (rest : List PortugolCodeError) :
    issueLine ≠ diagListing (e :: rest) := by
  apply strNeOfTakeNe 4
  rw [diagListing_take4]
  decide

/-- The start marker is never the diagnostic listing. -/
theorem sm_ne_dl (e : PortugolCodeError) (rest : List PortugolCodeError) :
    startMarker ≠ diagListing (e :: rest) := by
  apply strNeOfTakeNe 4
  rw [diagListing_take4]
  decide

/-- The keystroke handler emits exactly one value on `stdOut$` per
keystroke, and that value is the updated transcript, on every branch. -/
theorem outFilter_handleStdIn (st : ExecState) (d : String) :
    (handleStdIn st d).2.filter Emission.isOut =
      [Emission.outE (handleStdIn st d).1.stdOut] := by
  unfold handleStdIn
  by_cases h1 : d = "\x08"
  · by_cases h2 : st.stdInBuffer.length > 0
    · simp [h1, h2, Emission.isOut]
    · simp [h1, h2, Emission.isOut]
  · by_cases h2 : d = "\x0d"
    · cases hr : st.runnerId <;> simp [h1, h2, hr, Emission.isOut]
    · simp [h1, h2, Emission.isOut]

/-- The chunk-forwarding handler's emission is not the updated
transcript when the transcript was non-empty before the chunk. -/
theorem chunk_emission_ne (st : ExecState) (d : String) (h : st.stdOut ≠ "") :
    (chunkHandler st d).2 ≠ Emission.outE (chunkHandler st d).1.stdOut := by
  simp only [chunkHandler]
  intro he
  have hd : d = st.stdOut ++ d := by
    injection he
  have hlen : d.length = st.stdOut.length + d.length := by
    conv_lhs => rw [hd]
    exact String.length_append _ _
  have h0 : st.stdOut.length = 0 := by omega
  apply h
  cases hs : st.stdOut with
  | mk l =>
    cases l with
    | nil => rfl
    | cons a t => rw [hs] at h0; simp [String.length] at h0

/-- On the warn-and-continue path the single `stdOut$` emission of the
launch is the full transcript. -/
theorem warn_outFilter (st : ExecState) (b : RunBundle) (bc : String)
    (h1 : b.parseErrors = []) (h2 : b.errors ≠ []) :
    (runTranspiled st b (Except.ok bc)).2.filter Emission.isOut =
      [Emission.outE (runTranspiled st b (Except.ok bc)).1.stdOut] := by
  simp [runTranspiled, h1, h2, reset, Emission.isOut]

/-- On the warn-and-continue path the transcript after the launch is
exactly the joined warn segments. -/
theorem warn_stdOut (st : ExecState) (b : RunBundle) (bc : String)
    (h1 : b.parseErrors = []) (h2 : b.errors ≠ []) :
    (runTranspiled st b (Except.ok bc)).1.stdOut = joinAll (warnSegments b.code b.errors) := by
  simp [runTranspiled, h1, h2, reset]

/-- The launch result does not depend on the transcript left by a
previous run: the unconditional initial `reset()` clears it. -/
theorem runTranspiled_clears (st : ExecState) (b : RunBundle) (ctor : Except Unit String) :
    runTranspiled st b ctor = runTranspiled { st with stdOut := "" } b ctor := by
  have hr : reset true st = reset true { st with stdOut := "" } := by
    cases st
    rfl
  unfold runTranspiled
  rw [hr]

/-- The fatal path: with non-empty syntax diagnostics the launch
allocates no runner and no subscription, leaves `byteCode` alone, ends
with exactly the failure line as transcript, and emits exactly the
transcript, the timing hook with no execution time, and one
`parseError` event. -/
theorem runTranspiled_fatal (st : ExecState) (b : RunBundle) (ctor : Except Unit String)
    (h : b.parseErrors ≠ []) :
    (runTranspiled st b ctor).1.stdOut = failLine
    ∧ (runTranspiled st b ctor).1.nextRunnerId = st.nextRunnerId
    ∧ (runTranspiled st b ctor).1.nextSubId = st.nextSubId
    ∧ (runTranspiled st b ctor).1.byteCode = st.byteCode
    ∧ (runTranspiled st b ctor).2 =
        [Emission.outE failLine,
         Emission.timesE b.times.parseT b.times.checkT b.times.transpileT none,
         Emission.eventE (PortugolEvent.parseError b.parseErrors)] := by
  simp only [runTranspiled, if_pos h]
  refine ⟨?_, rfl, rfl, rfl, ?_⟩
  · simp [catchPath, reset]
  · simp [catchPath, reset]

/-- Backspace with a non-empty input buffer and an already-empty
transcript: the buffer loses its last character, the transcript stays
empty, and the empty transcript is still emitted. -/
theorem handle_backspace (st : ExecState) (h1 : st.stdInBuffer ≠ "") (h2 : st.stdOut = "") :
    (handleStdIn st "\x08").1.stdOut = ""
    ∧ (handleStdIn st "\x08").1.stdInBuffer = strDropLast st.stdInBuffer
    ∧ (handleStdIn st "\x08").2 = [Emission.outE ""] := by
  have hl : st.stdInBuffer.length > 0 := by
    cases hb : st.stdInBuffer with
    | mk l =>
      cases l with
      | nil => exact absurd (hb.trans (by rfl)) h1
      | cons a t => simp [String.length]
  simp [handleStdIn, hl, h2, strDropLast]

/-- Full case analysis of the pipeline: which fields are computed and
which keep their defaults under each failure point, and the exact
timing values. -/
theorem pipeline_cases (clock : Nat → Int) (c : Collaborators) (code : String) :
    (runPipeline clock c code).code = code
    ∧ (runPipeline clock c code).parseErrors = c.listenerErrors
    ∧ (c.parseResult = Except.error () →
        (runPipeline clock c code).js = "" ∧ (runPipeline clock c code).errors = []
        ∧ (runPipeline clock c code).times.parseT = 0 - clock 0
        ∧ (runPipeline clock c code).times.checkT = 0
        ∧ (runPipeline clock c code).times.transpileT = 0)
    ∧ (∀ t, c.parseResult = Except.ok t → c.checkTree t = Except.error () →
        (runPipeline clock c code).js = "" ∧ (runPipeline clock c code).errors = []
        ∧ (runPipeline clock c code).times.parseT = clock 1 - clock 0
        ∧ (runPipeline clock c code).times.checkT = 0 - clock 2
        ∧ (runPipeline clock c code).times.transpileT = 0)
    ∧ (∀ t es, c.parseResult = Except.ok t → c.checkTree t = Except.ok es →
        c.visit t = Except.error () →
        (runPipeline clock c code).js = "" ∧ (runPipeline clock c code).errors = es
        ∧ (runPipeline clock c code).times.parseT = clock 1 - clock 0
        ∧ (runPipeline clock c code).times.checkT = clock 3 - clock 2
        ∧ (runPipeline clock c code).times.transpileT = 0 - clock 4)
    ∧ (∀ t es s, c.parseResult = Except.ok t → c.checkTree t = Except.ok es →
        c.visit t = Except.ok s →
        (runPipeline clock c code).js = s ∧ (runPipeline clock c code).errors = es
        ∧ (runPipeline clock c code).times.parseT = clock 1 - clock 0
        ∧ (runPipeline clock c code).times.checkT = clock 3 - clock 2
        ∧ (runPipeline clock c code).times.transpileT = clock 5 - clock 4) := by
  refine ⟨?_, ?_, ?_, ?_, ?_, ?_⟩
  · rcases hp : c.parseResult with u | t
    · simp [runPipeline, hp]
    · rcases hc : c.checkTree t with u | es
      · simp [runPipeline, hp, hc]
      · rcases hv : c.visit t with u | s
        · simp [runPipeline, hp, hc, hv]
        · simp [runPipeline, hp, hc, hv]
  · rcases hp : c.parseResult with u | t
    · simp [runPipeline, hp]
    · rcases hc : c.checkTree t with u | es
      · simp [runPipeline, hp, hc]
      · rcases hv : c.visit t with u | s
        · simp [runPipeline, hp, hc, hv]
        · simp [runPipeline, hp, hc, hv]
  · intro h
    simp [runPipeline, h]
  · intro t ht hc
    simp [runPipeline, ht, hc]
  · intro t es ht hc hv
    simp [runPipeline, ht, hc, hv]
  · intro t es s ht hc hv
    simp [runPipeline, ht, hc, hv]

/-- C1: contrary to the claim, the reset at the start of a second
launch releases none of the four forwarding subscriptions wired to the
first runner — the stored-handle fields are never assigned, so after
two consecutive launches all four subscriptions to runner 0 are still
live.  The claim's conclusion nevertheless holds: a chunk emitted by
the second runner is delivered exactly once on `stdOut$`, because each
forwarding subscription listens only to its own runner's streams. -/
theorem C1_reset_releases_no_subscriptions :
    (launch2.1.subs.filter (fun s => s.rid == 0)).length = 4
    ∧ (deliverChunk launch2.1 1 "x").2 = [Emission.outE "x"] := by
  decide

/-- C2 counterexample: after runner 0 has emitted chunk `a`, forwarding
its chunk `b` emits `b` on `stdOut$`, not the full updated transcript
`ab` — so not every emitted value is the accumulated transcript. -/
theorem C2_chunk_counterexample :
    (deliverChunk (deliverChunk launch1.1 0 "a").1 0 "b").2 ≠
      [Emission.outE (deliverChunk (deliverChunk launch1.1 0 "a").1 0 "b").1.stdOut] := by
  decide

/-- C2 amended: every keystroke emits the full updated transcript, and
so does the warn-path diagnostic append; but the runner chunk handler
appends the chunk and emits only the chunk itself, which differs from
the updated transcript whenever the transcript was non-empty before
the chunk. -/
theorem C2_output_emissions :
    (∀ (st : ExecState) (d : String),
      (handleStdIn st d).2.filter Emission.isOut =
        [Emission.outE (handleStdIn st d).1.stdOut])
    ∧ (∀ (st : ExecState) (d : String),
      chunkHandler st d = ({ st with stdOut := st.stdOut ++ d }, Emission.outE d))
    ∧ (∀ (st : ExecState) (d : String), st.stdOut ≠ "" →
      (chunkHandler st d).2 ≠ Emission.outE (chunkHandler st d).1.stdOut)
    ∧ (∀ (st : ExecState) (b : RunBundle) (bc : String),
      b.parseErrors = [] → b.errors ≠ [] →
      (runTranspiled st b (Except.ok bc)).2.filter Emission.isOut =
        [Emission.outE (runTranspiled st b (Except.ok bc)).1.stdOut]) :=
  ⟨outFilter_handleStdIn, fun _ _ => rfl, chunk_emission_ne, warn_outFilter⟩

/-- C2 witness: the amended theorem at a state with transcript `a` and
chunk `b`, and at the warn bundle. -/
theorem C2_output_emissions_witness :
    (chunkHandler chunkSt "b").2 ≠ Emission.outE (chunkHandler chunkSt "b").1.stdOut
    ∧ (runTranspiled initState warnBundle (Except.ok "bc")).2.filter Emission.isOut =
        [Emission.outE (runTranspiled initState warnBundle (Except.ok "bc")).1.stdOut] :=
  ⟨C2_output_emissions.2.2.1 chunkSt "b" (by decide),
   C2_output_emissions.2.2.2 initState warnBundle "bc" rfl (by decide)⟩

/-- C3 counterexample: `reset` (hence `stop()`) performs no `next` call
on the public streams — the claimed emissions of the two `false`
values never happen, already from the initial state. -/
theorem C3_no_emission_counterexample :
    ¬ (Emission.waitingE false ∈ (reset true initState).2
       ∧ Emission.runningE false ∈ (reset true initState).2) := by
  decide

/-- C3 amended: every call to `reset` (with either flag value, hence
every `stop()`, also with no active runner) sets `waitingForInput` and
`running` to false and does not raise, but emits nothing on the public
streams. -/
theorem C3_reset_flags : ∀ (c : Bool) (st : ExecState),
    (reset c st).1.waitingForInput = false
    ∧ (reset c st).1.running = false
    ∧ (reset c st).2 = []
    ∧ (stop st).1.waitingForInput = false
    ∧ (stop st).1.running = false
    ∧ (stop st).2 = [] :=
  fun _ _ => ⟨rfl, rfl, rfl, rfl, rfl, rfl⟩

/-- C4: with a non-empty syntax-diagnostics list the launcher
constructs no runner (no runner id and no subscription id is
allocated), appends exactly the fixed failure line to the cleared
transcript, invokes the timing hook with the original timings and no
execution time, keeps the transcript through the non-clearing reset,
and emits exactly one `parseError` event carrying that list. -/
theorem C4_fatal_path (st : ExecState) (b : RunBundle) (ctor : Except Unit String)
    (h : b.parseErrors ≠ []) :
    (runTranspiled st b ctor).1.stdOut = failLine
    ∧ (runTranspiled st b ctor).1.nextRunnerId = st.nextRunnerId
    ∧ (runTranspiled st b ctor).1.nextSubId = st.nextSubId
    ∧ (runTranspiled st b ctor).1.byteCode = st.byteCode
    ∧ (runTranspiled st b ctor).2 =
        [Emission.outE failLine,
         Emission.timesE b.times.parseT b.times.checkT b.times.transpileT none,
         Emission.eventE (PortugolEvent.parseError b.parseErrors)] :=
  runTranspiled_fatal st b ctor h

/-- C4 witness: the fatal path at a concrete one-diagnostic bundle. -/
theorem C4_fatal_path_witness :
    (runTranspiled initState fatalBundle (Except.error ())).1.stdOut = failLine
    ∧ (runTranspiled initState fatalBundle (Except.error ())).1.nextRunnerId =
        initState.nextRunnerId
    ∧ (runTranspiled initState fatalBundle (Except.error ())).1.nextSubId =
        initState.nextSubId
    ∧ (runTranspiled initState fatalBundle (Except.error ())).1.byteCode =
        initState.byteCode
    ∧ (runTranspiled initState fatalBundle (Except.error ())).2 =
        [Emission.outE failLine,
         Emission.timesE fatalBundle.times.parseT fatalBundle.times.checkT
           fatalBundle.times.transpileT none,
         Emission.eventE (PortugolEvent.parseError fatalBundle.parseErrors)] :=
  C4_fatal_path initState fatalBundle (Except.error ()) (by decide)

/-- C5: on the warn-and-continue path the appended transcript is the
joined warn segments; with a legacy keyword present the banner segment
occurs exactly twice with the diagnostic listing exactly once between
the two occurrences, with no legacy keyword it occurs zero times, and
the count line uses singular wording for exactly one diagnostic and
plural wording for two or more. -/
theorem C5_banner_and_wording : ∀ (code : String) (errors : List PortugolCodeError),
    errors ≠ [] →
    (∀ (st : ExecState) (b : RunBundle) (bc : String),
      b.parseErrors = [] → b.errors ≠ [] →
      (runTranspiled st b (Except.ok bc)).1.stdOut = joinAll (warnSegments b.code b.errors))
    ∧ (hasLegacy code = true →
      warnSegments code errors =
        [algolBanner, countLine errors.length, diagListing errors, warnPara, issueLine,
         algolBanner, startMarker]
      ∧ (warnSegments code errors).count algolBanner = 2
      ∧ (warnSegments code errors).count (diagListing errors) = 1)
    ∧ (hasLegacy code = false → (warnSegments code errors).count algolBanner = 0)
    ∧ (errors.length = 1 →
      countLine errors.length = "⛔ O seu código possui 1 erro de compilação:\n")
    ∧ (2 ≤ errors.length →
      countLine errors.length =
        "⛔ O seu código possui " ++ toString errors.length ++ " erros de compilação:\n") := by
  intro code errors hne
  rcases errors with _ | ⟨e, rest⟩
  · exact absurd rfl hne
  refine ⟨warn_stdOut, ?_, ?_, ?_, ?_⟩
  · intro h
    refine ⟨by simp [warnSegments, argueSegments, h], ?_, ?_⟩
    · simp [warnSegments, argueSegments, h, List.count_cons, cl_ne_banner,
        dl_ne_banner e rest, (by decide : warnPara ≠ algolBanner),
        (by decide : issueLine ≠ algolBanner), (by decide : startMarker ≠ algolBanner)]
    · simp [warnSegments, argueSegments, h, List.count_cons, dl_ne_banner, cl_ne_dl,
        wp_ne_dl, il_ne_dl, sm_ne_dl, (dl_ne_banner e rest).symm,
        (wp_ne_dl e rest).symm, (il_ne_dl e rest).symm, (sm_ne_dl e rest).symm]
  · intro h
    simp [warnSegments, argueSegments, h, List.count_cons, cl_ne_banner,
      dl_ne_banner e rest, (by decide : warnPara ≠ algolBanner),
      (by decide : issueLine ≠ algolBanner), (by decide : startMarker ≠ algolBanner)]
  · intro h
    rw [h]
    decide
  · intro h
    have hgt : 0 < rest.length := by
      simp only [List.length_cons] at h
      omega
    apply String.ext
    simp [countLine, hgt, String.data_append, List.append_assoc]

/-- C5 witness: one semantic diagnostic and a `fimse` keyword give the
banner twice, the listing once, and singular wording. -/
theorem C5_banner_and_wording_witness :
    (warnSegments "se x entao escreva(1) fimse" warnBundle.errors).count algolBanner = 2
    ∧ (warnSegments "se x entao escreva(1) fimse" warnBundle.errors).count
        (diagListing warnBundle.errors) = 1
    ∧ countLine warnBundle.errors.length =
        "⛔ O seu código possui 1 erro de compilação:\n" :=
  ⟨((C5_banner_and_wording "se x entao escreva(1) fimse" warnBundle.errors
      (by decide)).2.1 (by decide)).2.1,
   ((C5_banner_and_wording "se x entao escreva(1) fimse" warnBundle.errors
      (by decide)).2.1 (by decide)).2.2,
   (C5_banner_and_wording "se x entao escreva(1) fimse" warnBundle.errors
      (by decide)).2.2.2.1 (by decide)⟩

/-- C6: a raise in any phase aborts only the remaining phases —
already-computed fields keep their values, uncomputed ones default to
empty text or the empty list — the syntax-diagnostics side channel is
always read, and `run` always builds the bundle and hands it to the
launcher. -/
theorem C6_failure_tolerance : ∀ (clock : Nat → Int) (c : Collaborators) (code : String)
    (ctor : Except Unit String) (st : ExecState),
    (runPipeline clock c code).code = code
    ∧ (runPipeline clock c code).parseErrors = c.listenerErrors
    ∧ (c.parseResult = Except.error () →
        (runPipeline clock c code).js = "" ∧ (runPipeline clock c code).errors = [])
    ∧ (∀ t, c.parseResult = Except.ok t → c.checkTree t = Except.error () →
        (runPipeline clock c code).js = "" ∧ (runPipeline clock c code).errors = [])
    ∧ (∀ t es, c.parseResult = Except.ok t → c.checkTree t = Except.ok es →
        c.visit t = Except.error () →
        (runPipeline clock c code).js = "" ∧ (runPipeline clock c code).errors = es)
    ∧ (∀ t es s, c.parseResult = Except.ok t → c.checkTree t = Except.ok es →
        c.visit t = Except.ok s →
        (runPipeline clock c code).js = s ∧ (runPipeline clock c code).errors = es)
    ∧ run clock c ctor st code = runTranspiled st (runPipeline clock c code) ctor := by
  intro clock c code ctor st
  obtain ⟨h1, h2, h3, h4, h5, h6⟩ := pipeline_cases clock c code
  exact ⟨h1, h2, fun h => ⟨(h3 h).1, (h3 h).2.1⟩,
         fun t ht hc => ⟨(h4 t ht hc).1, (h4 t ht hc).2.1⟩,
         fun t es ht hc hv => ⟨(h5 t es ht hc hv).1, (h5 t es ht hc hv).2.1⟩,
         fun t es s ht hc hv => ⟨(h6 t es s ht hc hv).1, (h6 t es s ht hc hv).2.1⟩, rfl⟩

/-- C6 witness: a raising checker keeps the parse products, defaults
`js` and `errors`, and the bundle is still built. -/
theorem C6_failure_tolerance_witness :
    (runPipeline cexClock cexCollab "p").js = ""
    ∧ (runPipeline cexClock cexCollab "p").errors = [] :=
  (C6_failure_tolerance cexClock cexCollab "p" (Except.error ()) initState).2.2.2.1
    { id := 0 } rfl rfl

/-- C7 counterexample: with a positive clock and a checker that raises,
the check timing is `0 − checkStart`, which is negative — refuting
that every timing in the bundle is non-negative. -/
theorem C7_negative_timing_counterexample :
    ¬ (0 ≤ (runPipeline cexClock cexCollab "p").times.checkT) := by
  decide

/-- C7 amended: every timing is end − start with zero for a phase never
entered, but the phase during which a raise happened keeps its end
timestamp at zero and contributes `0 − start` (negative for a positive
clock); for a monotone clock every completed phase's timing is
non-negative. -/
theorem C7_timings : ∀ (clock : Nat → Int) (c : Collaborators) (code : String),
    (c.parseResult = Except.error () →
      (runPipeline clock c code).times.parseT = 0 - clock 0
      ∧ (runPipeline clock c code).times.checkT = 0
      ∧ (runPipeline clock c code).times.transpileT = 0)
    ∧ (∀ t, c.parseResult = Except.ok t → c.checkTree t = Except.error () →
      (runPipeline clock c code).times.parseT = clock 1 - clock 0
      ∧ (runPipeline clock c code).times.checkT = 0 - clock 2
      ∧ (runPipeline clock c code).times.transpileT = 0)
    ∧ (∀ t es, c.parseResult = Except.ok t → c.checkTree t = Except.ok es →
      c.visit t = Except.error () →
      (runPipeline clock c code).times.parseT = clock 1 - clock 0
      ∧ (runPipeline clock c code).times.checkT = clock 3 - clock 2
      ∧ (runPipeline clock c code).times.transpileT = 0 - clock 4)
    ∧ (∀ t es s, c.parseResult = Except.ok t → c.checkTree t = Except.ok es →
      c.visit t = Except.ok s →
      (runPipeline clock c code).times.parseT = clock 1 - clock 0
      ∧ (runPipeline clock c code).times.checkT = clock 3 - clock 2
      ∧ (runPipeline clock c code).times.transpileT = clock 5 - clock 4)
    ∧ ((∀ i j, i ≤ j → clock i ≤ clock j) →
      ∀ t es s, c.parseResult = Except.ok t → c.checkTree t = Except.ok es →
      c.visit t = Except.ok s →
      0 ≤ (runPipeline clock c code).times.parseT
      ∧ 0 ≤ (runPipeline clock c code).times.checkT
      ∧ 0 ≤ (runPipeline clock c code).times.transpileT) := by
  intro clock c code
  obtain ⟨_, _, h3, h4, h5, h6⟩ := pipeline_cases clock c code
  refine ⟨fun h => (h3 h).2.2, fun t ht hc => (h4 t ht hc).2.2,
          fun t es ht hc hv => (h5 t es ht hc hv).2.2,
          fun t es s ht hc hv => (h6 t es s ht hc hv).2.2, ?_⟩
  intro hm t es s ht hc hv
  obtain ⟨_, _, hp, hck, htr⟩ := h6 t es s ht hc hv
  have h01 := hm 0 1 (by omega)
  have h23 := hm 2 3 (by omega)
  have h45 := hm 4 5 (by omega)
  exact ⟨by rw [hp]; omega, by rw [hck]; omega, by rw [htr]; omega⟩

/-- C7 witness: the amended theorem at the raising checker (negative
check timing) and at the all-success collaborators with the monotone
concrete clock. -/
theorem C7_timings_witness :
    ((runPipeline cexClock cexCollab "p").times.parseT = cexClock 1 - cexClock 0
     ∧ (runPipeline cexClock cexCollab "p").times.checkT = 0 - cexClock 2
     ∧ (runPipeline cexClock cexCollab "p").times.transpileT = 0)
    ∧ (0 ≤ (runPipeline cexClock okCollab "p").times.parseT
       ∧ 0 ≤ (runPipeline cexClock okCollab "p").times.checkT
       ∧ 0 ≤ (runPipeline cexClock okCollab "p").times.transpileT) :=
  ⟨(C7_timings cexClock cexCollab "p").2.1 { id := 0 } rfl rfl,
   (C7_timings cexClock okCollab "p").2.2.2.2
     (fun i j hij => by simp only [cexClock]; omega) { id := 0 } [] "js" rfl rfl rfl⟩

/-- C8: the unconditional initial reset of a launch clears the
transcript — the launch result is independent of any transcript left
by a previous run — and on the fatal-syntax path the resulting
transcript is exactly the fixed failure line. -/
theorem C8_initial_clear : ∀ (st : ExecState) (b : RunBundle) (ctor : Except Unit String),
    runTranspiled st b ctor = runTranspiled { st with stdOut := "" } b ctor
    ∧ (b.parseErrors ≠ [] → (runTranspiled st b ctor).1.stdOut = failLine) :=
  fun st b ctor => ⟨runTranspiled_clears st b ctor,
    fun h => (runTranspiled_fatal st b ctor h).1⟩

/-- C8 witness: launching the fatal bundle from a state with an old
transcript ends with exactly the failure line. -/
theorem C8_initial_clear_witness :
    (runTranspiled prevSt fatalBundle (Except.error ())).1.stdOut = failLine :=
  (C8_initial_clear prevSt fatalBundle (Except.error ())).2 (by decide)

/-- C9: `reset` (with either flag value, hence also `stop()`) leaves
`byteCode` and `stdInBuffer` unchanged. -/
theorem C9_reset_frame : ∀ (c : Bool) (st : ExecState),
    (reset c st).1.byteCode = st.byteCode
    ∧ (reset c st).1.stdInBuffer = st.stdInBuffer
    ∧ (stop st).1.byteCode = st.byteCode
    ∧ (stop st).1.stdInBuffer = st.stdInBuffer := by
  intro c st
  cases c <;> exact ⟨rfl, rfl, rfl, rfl⟩

/-- C10: a backspace with a non-empty input buffer and an already-empty
transcript raises nothing: the buffer loses its last character, the
transcript stays empty, and the empty transcript is still emitted. -/
theorem C10_backspace_total : ∀ (st : ExecState),
    st.stdInBuffer ≠ "" → st.stdOut = "" →
    (handleStdIn st "\x08").1.stdOut = ""
    ∧ (handleStdIn st "\x08").1.stdInBuffer = strDropLast st.stdInBuffer
    ∧ (handleStdIn st "\x08").2 = [Emission.outE ""] :=
  fun st h1 h2 => handle_backspace st h1 h2

/-- C10 witness: the backspace at a concrete state with buffer `ab`
and empty transcript. -/
theorem C10_backspace_total_witness :
    (handleStdIn backSt "\x08").1.stdOut = ""
    ∧ (handleStdIn backSt "\x08").1.stdInBuffer = strDropLast backSt.stdInBuffer
    ∧ (handleStdIn backSt "\x08").2 = [Emission.outE ""] :=
  C10_backspace_total backSt (by decide) rfl

end PortugolWS
